import Mathlib

/-!
Shallow embedding of the college-assistant chat bot in `src/app.py`.

Texts are modelled as `List Char`.  The webhook/transport layer is out of
scope (spec section 1); the embedding covers the response pipeline
(`handle_message`), the cache helpers (`get_cached_response`,
`save_to_cache`), the history helpers (`save_chat_history`,
`get_chat_history`), the prompt construction, directive extraction and
media dispatch.  Side effects (outbound messages, database writes, the
generation call) are recorded as an ordered trace of `Effect` values.
-/

namespace NVC

/-- ASCII fragment of the regex character class used in the directive
pattern of app.py line 383, which matches word characters and underscore.
All media-catalog tags are ASCII, so on the texts of interest this agrees
with the Python regex engine. -/
def isWordChar (c : Char) : Bool := c.isAlphanum || c == '_'

/-- Whitespace set of Python `str.strip()` (ASCII fragment: space, tab,
newline, carriage return, vertical tab, form feed). -/
def isSpaceChar (c : Char) : Bool :=
  c == ' ' || c == '\t' || c == '\n' || c == '\r' || c == '\x0b' || c == '\x0c'

/-- Python `str.strip()`: drop leading and trailing whitespace. -/
def strip (cs : List Char) : List Char :=
  ((cs.dropWhile isSpaceChar).reverse.dropWhile isSpaceChar).reverse

/-- Greedy step of the regex: the longest run of word characters at the
head of the text, together with the remainder. -/
def takeWordChars : List Char → List Char × List Char
  | [] => ([], [])
  | c :: rest =>
    if isWordChar c then
      let p := takeWordChars rest
      (c :: p.1, p.2)
    else ([], c :: rest)

/-- Substring-at-start test, the scanning primitive of `re.search` and of
Python `str.replace`. -/
def isPre : List Char → List Char → Bool
  | [], _ => true
  | _ :: _, [] => false
  | a :: as, b :: bs => a == b && isPre as bs

/-- The literal opening part of the directive pattern. -/
def IMAGE_OPEN : List Char := '[' :: 'I' :: 'M' :: 'A' :: 'G' :: 'E' :: ':' :: []

/-- The full matched substring for a captured tag, Python `match.group(0)`,
that is the text matched by the whole directive pattern. -/
def dirSubstring (tag : List Char) : List Char := IMAGE_OPEN ++ tag ++ [']']

/-- Try to match the directive pattern at the start of the text, returning
the captured tag.  The word-character run is greedy; since the closing
bracket is not a word character, greedy matching followed by the bracket
check is exactly the regex engine's behaviour at this position. -/
def matchAt (cs : List Char) : Option (List Char) :=
  if isPre IMAGE_OPEN cs then
    if (takeWordChars (cs.drop IMAGE_OPEN.length)).1 = [] then none
    else
      match (takeWordChars (cs.drop IMAGE_OPEN.length)).2 with
      | ']' :: _ => some (takeWordChars (cs.drop IMAGE_OPEN.length)).1
      | _ => none
  else none

/-- Python `re.search`: the match at the leftmost position where the
pattern matches, scanning positions left to right. -/
def findDirective : List Char → Option (List Char)
  | [] => none
  | c :: rest =>
    match matchAt (c :: rest) with
    | some tag => some tag
    | none => findDirective rest

/-- Step-bounded core of `str.replace` scanning: every step consumes at
least one character of the text, so a budget of the text's length always
suffices; structural recursion on the budget keeps the function
kernel-computable. -/
def removeAllAux (pat : List Char) : Nat → List Char → List Char
  | _, [] => []
  | 0, c :: rest => c :: rest
  | fuel + 1, c :: rest =>
    if pat = [] then c :: rest
    else if isPre pat (c :: rest) then removeAllAux pat fuel ((c :: rest).drop pat.length)
    else c :: removeAllAux pat fuel rest

/-- Python `str.replace(pat, "")`: delete every leftmost non-overlapping
occurrence of `pat` in a single left-to-right pass.  For an empty pattern
Python inserts the (empty) replacement everywhere and returns the string
unchanged, matching the guard. -/
def removeAll (pat cs : List Char) : List Char := removeAllAux pat cs.length cs

/-- Modelled from the spec: removing only the first occurrence of `pat`
(the behaviour the spec's words describe for directive stripping); used to
compare the spec's description with the code's `removeAll`. -/
def removeFirstOccurrence (pat : List Char) : List Char → List Char
  | [] => []
  | c :: rest =>
    if isPre pat (c :: rest) then (c :: rest).drop pat.length
    else c :: removeFirstOccurrence pat rest

/-- Number of positions of the text at which `pat` occurs. -/
def countOcc (pat : List Char) : List Char → Nat
  | [] => 0
  | c :: rest => (if isPre pat (c :: rest) then 1 else 0) + countOcc pat rest

/-- app.py lines 381-386: scan the answer for the directive with
`re.search`, and when found delete the matched substring with
`str.replace` (all occurrences) and `strip` the result.  Returns the
optional captured tag and the visible reply text. -/
def extract_directive (response_text : List Char) : Option (List Char) × List Char :=
  match findDirective response_text with
  | some tag => (some tag, strip (removeAll (dirSubstring tag) response_text))
  | none => (none, response_text)

/-! Conversation log (app.py lines 71-111). -/

/-- One row of the chat_history table (the chat_id and username columns
are threaded through unchanged by the code and carry no claim content, so
the embedding keeps the sender and message fields). -/
structure Turn where
  sender : List Char
  message : List Char
deriving DecidableEq

/-- Start marker line of the transcript block (app.py line 104). -/
def HIST_HEADER : String := "\n--- Chat History (Oldest to Newest) ---\n"

/-- End marker line of the transcript block (app.py line 107). -/
def HIST_FOOTER : String := "--- End Chat History ---\n"

/-- One line of the transcript block, app.py line 106: the f-string
producing an opening bracket, the upper-cased sender, a closing bracket,
a colon and space, the message and a newline. -/
def formatHistTurn (t : Turn) : List Char :=
  '[' :: (t.sender.map Char.toUpper ++ (']' :: ':' :: ' ' :: (t.message ++ ['\n'])))

/-- app.py get_chat_history (lines 88-111): when the backend is available,
select the rows of this chat ordered newest first limited to `limit`
(modelled as `turns.reverse.take limit` over the insertion-ordered rows),
return the empty string when there are none, otherwise re-order oldest to
newest and fold the formatted lines between the header and footer markers.
When the backend is unavailable (or the query raises) the function
returns the empty string. -/
def get_chat_history (available : Bool) (turns : List Turn) (limit : Nat) : List Char :=
  if available then
    if turns.reverse.take limit = [] then []
    else
      ((turns.reverse.take limit).reverse.foldl
        (fun acc t => acc ++ formatHistTurn t) HIST_HEADER.data) ++ HIST_FOOTER.data
  else []

/-! Response cache persistence (app.py lines 114-163). -/

/-- app.py save_to_cache (lines 148-163): no write when the backend is
unavailable; strip the question; skip storage when the stripped length is
below 2 or above 200; otherwise insert the row (stripped question, raw
response).  The returned value is the row written, if any. -/
def save_to_cache (available : Bool) (message : List Char) (response : List Char) :
    Option (List Char × List Char) :=
  if available then
    if (strip message).length < 2 ∨ 200 < (strip message).length then none
    else some (strip message, response)
  else none

/-- The fixed fallback message of app.py line 378, substituted when the
generator returned no usable text. -/
def FALLBACK : String := "ขออภัยครับ ระบบไม่สามารถประมวลผลคำตอบได้ในขณะนี้"


/-! The prompt texts (app.py lines 234-276 and 343-369). -/

/-- The directive-catalog instructions literal of app.py lines 234-276,
transcribed in consecutive pieces (kept short so that positional facts
about each piece stay within the kernel evaluation budget). -/
def instrPart1 : String :=
  "
    ### 🖼️ คำสั่งพิเศษเกี่ยวกับรูปภาพ
    นอกจากการตอบคำถามแล้ว คุณสามารถแนะนำรูปภาพประกอบได้
    หากคำถามของผู้ใช้หรือคำตอบของคุณเกี่ยวข้องกับรายการใดต่อไปนี้ ให้คุณ **เพิ่มแท็ก** พิเศษต่อท้ายคำตอบของคุณ:

    -   เกี่ยวกับ \"📍 แผนที่วิทยาลัย\", \"ที่ตั้ง\", หรือ \"การเดินทาง\" ไปยังวิทยาลัย: ให้เพิ่มแท็ก `[IMAGE:map]`
    -   เกี่ยวกับ \"ผัง\" หรือ \"ผังอาคาร\": ให้เพิ่มแท็ก `[IMAGE:pang]`
    -   เกี่ยวกับ \"นักศึกษาใหม่ ระดับปริญญาตรี รอบโควตาทั่วไป ประจำปีการศึกษา 2569\": ให้เพิ่มแท็ก `[IMAGE:QU]`
    -   เกี่ยวกับ \"เปิดรับสมัครแล้ว โควตากรณีพิเศษ (รอบที่ 1) ปีการศึกษา 2569\": ให้เพิ่มแท็ก `[IMAGE:quota_round_1]`
"

def instrPart2 : String :=
  "    -   เกี่ยวกับ \"📝 การรับสมัคร\": ให้เพิ่มแท็ก `[IMAGE:quota_round_2]`
    -   เกี่ยวกับ \"การผ่อนผันเข้ารับราชการทหาร ประจำปีการศึกษา 2569\": ให้เพิ่มแท็ก `[IMAGE:pp]`


    -   เกี่ยวกับ \"ครูแผนกเทคโนโลยีธุรกิจดิจิทัล\",หรือ \"บุคลากรแผนกวิชาเทคโนโลยีธุรกิจดิจิทัล\": ให้เพิ่มแท็ก `[IMAGE:DBT]`
    -   เกี่ยวกับ \"ครูแผนกสามัญ\",หรือ \"บุคลากรแผนกวิชาสามัญ\": ให้เพิ่มแท็ก `[IMAGE:DeoGl]`
    -   เกี่ยวกับ \"ครูแผนกอาหารและโภชนาการ\",หรือ \"บุคลากรแผนกวิชาอาหารและโภชนาการ\": ให้เพิ่มแท็ก `[IMAGE:DeoF]`
    -   เกี่ยวกับ \"ครูแผนกวิชาคหกรรมศาสตร์\",หรือ \"บุคลากรแผนกวิชาคหกรรมศาสตร์\": ให้เพิ่มแท็ก `[IMAGE:DeoHEc]`
"

def instrPart3 : String :=
  "    -   เกี่ยวกับ \"ครูแผนกวิชาเทคโนโลยีแฟชั่นและเครื่องแต่งกาย\",หรือ \"บุคลากรแผนกวิชาเทคโนโลยีแฟชั่นและเครื่องแต่งกาย\": ให้เพิ่มแท็ก `[IMAGE:DeoFaAT]`
    -   เกี่ยวกับ \"ครูแผนกวิชาการบัญชี\",หรือ \"บุคลากรแผนกวิชาการบัญชี\": ให้เพิ่มแท็ก `[IMAGE:Ac]`
    -   เกี่ยวกับ \"ครูแผนกกวิชาการตลาด\",หรือ \"บุคลากรแผนกวิชาการตลาด\": ให้เพิ่มแท็ก `[IMAGE:MkD]`
    -   เกี่ยวกับ \"ครูแผนกวิชาการจัดการสำนักงานดิจิทัล\",หรือ \"บุคลากรแผนกวิชาการจัดการสำนักงานดิจิทัล\": ให้เพิ่มแท็ก `[IMAGE:Desom]`
"

def instrPart4 : String :=
  "    -   เกี่ยวกับ \"ครูแผนกวิชาการจัดการธุรกิจ\",หรือ \"บุคลากรแผนกวิชาการจัดการธุรกิจ\",หรือ \"บุคลากรแผนกวิชาการจัดการโลจิสติกส์และซัพพลายเซน\": ให้เพิ่มแท็ก `[IMAGE:DeoLaSCM]`
    -   เกี่ยวกับ \"ครูแผนกวิชาการโรงแรม\",หรือ \"บุคลากรแผนกวิชาการโรงแรม\": ให้เพิ่มแท็ก `[IMAGE:HDe]`
    -   เกี่ยวกับ \"ครูแผนกวิชาการจัดการธุรกิจท่องเที่ยว\",หรือ \"บุคลากรแผนกวิชาการจัดการธุรกิจท่องเที่ยว\": ให้เพิ่มแท็ก `[IMAGE:DeoTBM]`
    -   เกี่ยวกับ \"ครูแผนกวิชาภาษาต่างประเทศ\",หรือ \"บุคลากรแผนกวิชาภาษาต่างประเทศ\": ให้เพิ่มแท็ก `[IMAGE:DeoTBMa]`
    -   เกี่ยวกับ \"ครูแผนกวิชาเทคโนโลยีสารสนเทศ\",หรือ \"บุคลากรแผนกวิชาเทคโนโลยีสารสนเทศ\": ให้เพิ่มแท็ก `[IMAGE:ITD]`
"

def instrPart5 : String :=
  "    -   เกี่ยวกับ \"ครูแผนกวิชาอุตสาหกรรมโลจิสติกส์\",หรือ \"บุคลากรแผนกวิชาอุตสาหกรรมโลจิสติกส์\": ให้เพิ่มแท็ก `[IMAGE:DeoLI]`






    -   เกี่ยวกับ \"อาคาร 1\": หรือ \"อาคารอำนวยการ\": ให้เพิ่มแท็ก `[IMAGE:building_1]`
    -   เกี่ยวกับ \"อาคาร 2\": ให้เพิ่มแท็ก `[IMAGE:building_2]`
    -   เกี่ยวกับ \"อาคาร 3\": ให้เพิ่มแท็ก `[IMAGE:building_3]`
    -   เกี่ยวกับ \"อาคาร 4\": ให้เพิ่มแท็ก `[IMAGE:building_4]`
    -   เกี่ยวกับ \"อาคาร 5\": ให้เพิ่มแท็ก `[IMAGE:building_5]`
    -   เกี่ยวกับ \"อาคาร 6\": ให้เพิ่มแท็ก `[IMAGE:building_6]`
    -   เกี่ยวกับ \"อาคาร 7\": ให้เพิ่มแท็ก `[IMAGE:building_7]`
"

def instrPart6 : String :=
  "    -   เกี่ยวกับ \"อาคาร 8\": ให้เพิ่มแท็ก `[IMAGE:building_8]`
    -   เกี่ยวกับ \"ห้อง 632\": ให้เพิ่มแท็ก `[IMAGE:building_6_632]`
    "

/-- The full directive-catalog instructions literal of app.py lines
234-276: the concatenation of its consecutive pieces. -/
def IMAGE_PROMPT_INSTRUCTIONS : String := instrPart1 ++ instrPart2 ++ instrPart3 ++ instrPart4 ++ instrPart5 ++ instrPart6

/-- Literal chunk of the prompt f-string before the reference text interpolation: role framing, the Persona, Formatting and Safety sections and the Context header. -/
def promptPart1 : String :=
  "
            คุณคือแชทบอทผู้เชี่ยวชาญด้านข้อมูลของวิทยาลัยอาชีวศึกษานครศรีธรรมราช (NVC Assistant)
            ***
            ### 🎯 Persona
            สุภาพ, เป็นมิตร, ช่วยเหลือ, ตอบเป็นธรรมชาติ

            ### 📝 Formatting
            ใช้ตัวหนา, รายการ, เว้นวรรคให้อ่านง่าย

            ### 🚨 Safety
            ตอบเฉพาะข้อมูลในบริบท ถ้าไม่มีให้แนะนำติดต่อวิทยาลัย

            ***
            ### 📘 Context (ข้อมูลวิทยาลัย)
            "

/-- Literal chunk between the reference text and the history block: the History header. -/
def promptPart2 : String :=
  "

            ### 💬 History (ประวัติการคุย)
            "

/-- Literal chunk between the history block and the question: the Question header. -/
def promptPart3 : String :=
  "

            ### ❓ Question (คำถามล่าสุด)
            "

/-- Literal chunk between the question and the catalog instructions: a separator. -/
def promptPart4 : String :=
  "

            ***
            "

/-- Literal chunk after the catalog instructions: the Answer cue. -/
def promptPart5 : String :=
  "

            ### Answer
            "

/-- The prompt composition of app.py lines 343-369: the f-string is the
concatenation of its literal chunks with the reference text, the history
block, the verbatim question and the catalog instructions interpolated at
their places. -/
def gemini_prompt (pdf_text chat_history_text user_message : List Char) : List Char :=
  promptPart1.data ++ pdf_text ++ promptPart2.data ++ chat_history_text
    ++ promptPart3.data ++ user_message ++ promptPart4.data
    ++ IMAGE_PROMPT_INSTRUCTIONS.data ++ promptPart5.data

/-! The directive-tagged media catalog (app.py lines 182-231). -/

/-- Payload of a catalog entry: one photo or an album of photos. -/
inductive MediaPayload where
  | single (url : String)
  | album (urls : List String)
deriving DecidableEq

/-- The static media catalog IMAGE_LOOKUP of app.py lines 182-231, as the
lookup function of the Python dict: a tag maps to its payload and caption. -/
def IMAGE_LOOKUP (tag : String) : Option (MediaPayload × String) :=
  if tag = "map" then some (MediaPayload.single "https://squqrsinrzpqbvbnirzw.supabase.co/storage/v1/object/public/nvc_images/map.png", "แผนที่วิทยาลัย")
  else if tag = "pang" then some (MediaPayload.single "https://squqrsinrzpqbvbnirzw.supabase.co/storage/v1/object/public/nvc_images/pang.png", "ผังอาคาร")
  else if tag = "pp" then some (MediaPayload.single "https://squqrsinrzpqbvbnirzw.supabase.co/storage/v1/object/public/nvc_images/pp.jpg", "การผ่อนผันทหาร")
  else if tag = "QU" then some (MediaPayload.single "https://squqrsinrzpqbvbnirzw.supabase.co/storage/v1/object/public/nvc_images/QU.jpg", "ประกาศรับสมัคร ป.ตรี")
  else if tag = "DBT" then some (MediaPayload.single "https://squqrsinrzpqbvbnirzw.supabase.co/storage/v1/object/public/nvc_images/department/DBT.png", "บุคลากรแผนกวิชาเทคโนโลยีธุรกิจดิจิทัล")
  else if tag = "DeoGl" then some (MediaPayload.single "https://squqrsinrzpqbvbnirzw.supabase.co/storage/v1/object/public/nvc_images/department/DeoGl.png", "บุคลากรแผนกวิชาสามัญ")
  else if tag = "DeoF" then some (MediaPayload.single "https://squqrsinrzpqbvbnirzw.supabase.co/storage/v1/object/public/nvc_images/department/DeoF.png", "บุคลากรแผนกอาหารและโภชนาการ")
  else if tag = "DeoHEc" then some (MediaPayload.single "https://squqrsinrzpqbvbnirzw.supabase.co/storage/v1/object/public/nvc_images/department/DeoHEc.png", "บุคลากรแผนกวิชาคหกรรมศาสตร์")
  else if tag = "DeoFaAT" then some (MediaPayload.single "https://squqrsinrzpqbvbnirzw.supabase.co/storage/v1/object/public/nvc_images/department/DeoFaAT.png", "บุคลากรแผนกวิชาเทคโนโลยีแฟชั่นและเครื่องแต่งกาย")
  else if tag = "Ac" then some (MediaPayload.single "https://squqrsinrzpqbvbnirzw.supabase.co/storage/v1/object/public/nvc_images/department/Ac.png", "บุคลากรแผนกวิชาการบัญชี")
  else if tag = "MkD" then some (MediaPayload.single "https://squqrsinrzpqbvbnirzw.supabase.co/storage/v1/object/public/nvc_images/department/MkD.png", "บุคลากรแผนกวิชาการตลาด")
  else if tag = "Desom" then some (MediaPayload.single "https://squqrsinrzpqbvbnirzw.supabase.co/storage/v1/object/public/nvc_images/department/Desom.png", "บุคลากรแผนกวิชาการจัดการสำนักงานดิจิทัล")
  else if tag = "DeoLaSCM" then some (MediaPayload.single "https://squqrsinrzpqbvbnirzw.supabase.co/storage/v1/object/public/nvc_images/department/DeoLaSCM.png", "บุคลากรแผนกวิชาการจัดการธุรกิจ/แผนกวิชาการจัดการโลจิสติกส์และซัพพลายเซน")
  else if tag = "HDe" then some (MediaPayload.single "https://squqrsinrzpqbvbnirzw.supabase.co/storage/v1/object/public/nvc_images/department/HDe.png", "บุคลากรแผนกวิชาการโรงแรม")
  else if tag = "DeoTBM" then some (MediaPayload.single "https://squqrsinrzpqbvbnirzw.supabase.co/storage/v1/object/public/nvc_images/department/DeoTBM.png", "บุคลากรแผนกวิชาการจัดการธุรกิจท่องเที่ยว")
  else if tag = "DeoTBMa" then some (MediaPayload.single "https://squqrsinrzpqbvbnirzw.supabase.co/storage/v1/object/public/nvc_images/department/DeoTBMa.png", "บุคลากรแผนกวิชาภาษาต่างประเทศ")
  else if tag = "ITD" then some (MediaPayload.single "https://squqrsinrzpqbvbnirzw.supabase.co/storage/v1/object/public/nvc_images/department/ITD.png", "บุคลากรแผนกวิชาเทคโนโลยีสารสนเทศ")
  else if tag = "DeoLI" then some (MediaPayload.single "https://squqrsinrzpqbvbnirzw.supabase.co/storage/v1/object/public/nvc_images/department/DeoLI.png", "บุคลากรแผนกวิชาอุตสาหกรรมโลจิสติกส์")
  else if tag = "quota_round_1" then some (MediaPayload.album ["https://squqrsinrzpqbvbnirzw.supabase.co/storage/v1/object/public/nvc_images/QOU1.jpg", "https://squqrsinrzpqbvbnirzw.supabase.co/storage/v1/object/public/nvc_images/QOU2.jpg"], "รายละเอียดโควตารอบ 1")
  else if tag = "quota_round_2" then some (MediaPayload.album ["https://squqrsinrzpqbvbnirzw.supabase.co/storage/v1/object/public/nvc_images/QOU1.jpg", "https://squqrsinrzpqbvbnirzw.supabase.co/storage/v1/object/public/nvc_images/QU.jpg"], "📝 การรับสมัคร โควตากรณีพิเศษ (รอบที่ 1) ปีการศึกษา 2569")
  else if tag = "building_1" then some (MediaPayload.single "https://squqrsinrzpqbvbnirzw.supabase.co/storage/v1/object/public/nvc_images/1.png", "นี่คือภาพอาคาร 1 ครับ")
  else if tag = "building_2" then some (MediaPayload.single "https://squqrsinrzpqbvbnirzw.supabase.co/storage/v1/object/public/nvc_images/2.png", "นี่คือภาพอาคาร 2 ครับ")
  else if tag = "building_3" then some (MediaPayload.single "https://squqrsinrzpqbvbnirzw.supabase.co/storage/v1/object/public/nvc_images/3.png", "นี่คือภาพอาคาร 3 ครับ")
  else if tag = "building_4" then some (MediaPayload.single "https://squqrsinrzpqbvbnirzw.supabase.co/storage/v1/object/public/nvc_images/4.png", "นี่คือภาพอาคาร 4 ครับ")
  else if tag = "building_5" then some (MediaPayload.single "https://squqrsinrzpqbvbnirzw.supabase.co/storage/v1/object/public/nvc_images/5.png", "นี่คือภาพอาคาร 5 ครับ")
  else if tag = "building_6" then some (MediaPayload.single "https://squqrsinrzpqbvbnirzw.supabase.co/storage/v1/object/public/nvc_images/6.png", "นี่คือภาพอาคาร 6 ครับ")
  else if tag = "building_7" then some (MediaPayload.single "https://squqrsinrzpqbvbnirzw.supabase.co/storage/v1/object/public/nvc_images/7.png", "นี่คือภาพอาคาร 7 ครับ")
  else if tag = "building_8" then some (MediaPayload.single "https://squqrsinrzpqbvbnirzw.supabase.co/storage/v1/object/public/nvc_images/8.png", "นี่คือภาพอาคาร 8 ครับ")
  else if tag = "building_6_632" then some (MediaPayload.single "https://squqrsinrzpqbvbnirzw.supabase.co/storage/v1/object/public/nvc_images/IMG_20251117_132117.jpg", "นี่คือห้อง 632 ครับ")
  else none

/-! The response pipeline (app.py handle_message, lines 309-419). -/

/-- One observable side effect of the pipeline, in the order it is
performed: a chat_history insert, the history select, the generation
call (carrying the composed prompt), an outbound text message, an
outbound photo or album (photo list paired with per-item captions), and a
response_cache insert. -/
inductive Effect where
  | historyWrite (sender : String) (text : List Char)
  | historyFetch (limit : Nat)
  | generate (prompt : List Char)
  | sendMessage (text : List Char)
  | sendPhoto (url : String) (caption : String)
  | sendAlbum (photos : List (String × String))
  | cacheWrite (question : List Char) (answer : List Char)
deriving DecidableEq

/-- The environment a single inbound message is handled in: whether the
persistence backend is connected, the (fresh) cache lookup result for
this message, the text of the generation result when the response object
and its text field are truthy, the prior chat_history rows of this chat
in insertion order, the reference text read from the context file, and
whether the media send succeeds (the try block of app.py lines 396-405
completes without an exception). -/
structure Env where
  supabaseAvailable : Bool
  cachedAnswer : Option (List Char)
  genText : Option (List Char)
  priorTurns : List Turn
  pdf_text : List Char
  mediaSendOk : Bool

/-- app.py get_cached_response (lines 114-145): `None` when the backend
is unavailable, otherwise the fresh-entry lookup result (abstracted into
the environment; the claims treat only hit versus miss). -/
def get_cached_response (env : Env) : Option (List Char) :=
  if env.supabaseAvailable then env.cachedAnswer else none

/-- The `if cached_answer:` truthiness test of app.py line 332: a hit is a
non-`None`, non-empty cached answer. -/
def is_cached_of (env : Env) : Bool :=
  match get_cached_response env with
  | some a => !a.isEmpty
  | none => false

/-- app.py lines 372-378 on the miss path: take the generation text when
the response and its text field are truthy, strip it, and substitute the
fixed fallback when the result is empty. -/
def generated_response (env : Env) : List Char :=
  let rt := match env.genText with
            | some t => strip t
            | none => []
  if rt = [] then FALLBACK.data else rt

/-- The raw answer text of app.py lines 329-378: the cached answer on a
(truthy) hit, the validated generation result otherwise. -/
def response_text_of (env : Env) : List Char :=
  match get_cached_response env with
  | some a => if a.isEmpty then generated_response env else a
  | none => generated_response env

/-- app.py save_chat_history (lines 71-86): an insert into chat_history
when the backend is available, a silent no-op otherwise. -/
def save_chat_history (available : Bool) (sender : String) (message : List Char) :
    List Effect :=
  if available then [Effect.historyWrite sender message] else []

/-- The miss-path prefix of the pipeline, app.py lines 337-372: persist
the user turn, fetch the history with limit 8, compose the prompt over
the reference text and the history block, and call the generator. -/
def pre_effects (env : Env) (user_message : List Char) : List Effect :=
  if is_cached_of env then []
  else
    save_chat_history env.supabaseAvailable "user" user_message ++
    [Effect.historyFetch 8,
     Effect.generate (gemini_prompt env.pdf_text
       (get_chat_history env.supabaseAvailable env.priorTurns 8) user_message)]

/-- The album construction of app.py line 398: every photo paired with the
caption for the first item and the empty caption for the rest. -/
def media_effects (payload : MediaPayload) (caption : String) : List Effect :=
  match payload with
  | MediaPayload.single url => [Effect.sendPhoto url caption]
  | MediaPayload.album urls =>
    [Effect.sendAlbum (urls.enum.map fun p => (p.2, if p.1 = 0 then caption else ""))]

/-- The log suffix of app.py line 403 recording that the image was sent. -/
def sentImageMarker (tag : List Char) : List Char :=
  "\n(Sent Image: ".data ++ tag ++ ")".data

/-- app.py lines 392-405: when a tag was captured and is in the catalog,
send the photo or the album, and on a successful send append the
sent-image marker to the text that will be logged; otherwise no media and
the logged text is the visible reply.  Returns the media effects and the
final logged text. -/
def dispatch_and_log (env : Env) (image_tag : Option (List Char))
    (cleaned_response : List Char) : List Effect × List Char :=
  match image_tag with
  | some tag =>
    match IMAGE_LOOKUP (String.mk tag) with
    | some pc =>
      (media_effects pc.1 pc.2,
       if env.mediaSendOk then cleaned_response ++ sentImageMarker tag
       else cleaned_response)
    | none => ([], cleaned_response)
  | none => ([], cleaned_response)

/-- app.py lines 407-413: only on the miss path, persist the bot turn and,
when the visible reply is truthy and longer than 5 characters, store the
raw answer in the response cache. -/
def persist_effects (env : Env) (user_message response_text cleaned final_log : List Char) :
    List Effect :=
  if is_cached_of env then []
  else
    save_chat_history env.supabaseAvailable "bot" final_log ++
    (if cleaned ≠ [] ∧ 5 < cleaned.length then
       match save_to_cache env.supabaseAvailable user_message response_text with
       | some qa => [Effect.cacheWrite qa.1 qa.2]
       | none => []
     else [])

/-- app.py handle_message (lines 309-419): ignore an absent or empty text
message; otherwise obtain the raw answer (cache or generation, with the
miss-path effects), extract the directive, send the visible reply when
non-empty, dispatch media, and persist history and cache on the miss
path.  The value is the ordered trace of side effects. -/
def handle_message (env : Env) (msgOpt : Option (List Char)) : List Effect :=
  match msgOpt with
  | none => []
  | some user_message =>
    if user_message = [] then []
    else
      let response_text := response_text_of env
      let ec := extract_directive response_text
      let sendText := if ec.2 = [] then [] else [Effect.sendMessage ec.2]
      let dl := dispatch_and_log env ec.1 ec.2
      pre_effects env user_message ++ sendText ++ dl.1 ++
        persist_effects env user_message response_text ec.2 dl.2

/-! Effect classifiers used to state the claims. -/

/-- Outbound transport effects: text, photo or album sends. -/
def Effect.isOutbound : Effect → Bool
  | Effect.sendMessage _ => true
  | Effect.sendPhoto _ _ => true
  | Effect.sendAlbum _ => true
  | _ => false

/-- Response-cache inserts. -/
def Effect.isCacheWrite : Effect → Bool
  | Effect.cacheWrite _ _ => true
  | _ => false

/-- Outbound text-message sends. -/
def Effect.isSendText : Effect → Bool
  | Effect.sendMessage _ => true
  | _ => false

/-- Outbound media sends (photo or album). -/
def Effect.isMediaSend : Effect → Bool
  | Effect.sendPhoto _ _ => true
  | Effect.sendAlbum _ => true
  | _ => false

/-- chat_history inserts of a bot turn. -/
def Effect.isBotLog : Effect → Bool
  | Effect.historyWrite s _ => s == "bot"
  | _ => false

/-- chat_history inserts (either speaker). -/
def Effect.isHistoryWrite : Effect → Bool
  | Effect.historyWrite _ _ => true
  | _ => false

/-- The history select step. -/
def Effect.isHistoryFetch : Effect → Bool
  | Effect.historyFetch _ => true
  | _ => false

/-- The generation call (which consumes the composed prompt). -/
def Effect.isGenerate : Effect → Bool
  | Effect.generate _ => true
  | _ => false

/-! Positional helpers and concrete inputs used to settle the claims. -/

/-- Whether `pat` occurs in `cs` starting at position `i`. -/
def occursAt (cs pat : List Char) (i : Nat) : Bool := isPre pat (cs.drop i)

/-- Index of the first occurrence of `pat` in `cs`, if any. -/
def firstIdx (pat : List Char) : List Char → Option Nat
  | [] => none
  | c :: rest =>
    if isPre pat (c :: rest) then some 0
    else (firstIdx pat rest).map (fun n => n + 1)

/-- Strict order on optional indices: both defined and the first smaller. -/
def optIdxLt : Option Nat → Option Nat → Bool
  | some i, some j => Nat.blt i j
  | _, _ => false

/-- A conversation holding twenty prior turns, instantiating the
history-retrieval claim. -/
def hist20 : List Turn :=
  (List.range 20).map fun i => Turn.mk "user".data (List.replicate i 'x')

/-- Witness environment: persistence up, cache miss, the generator answers
with an embedded known-tag directive, media send succeeds. -/
def envC2 : Env := Env.mk true none (some "มีครับ [IMAGE:map] ดูเลย".data) [] [] true

/-- Evaluation environment for the fallback-caching behaviour: persistence
up, cache miss, the generator returns no usable text. -/
def envC3 : Env := Env.mk true none none [] [] true

/-- Witness environment: a fresh cached answer with a known-tag directive. -/
def envC4 : Env := Env.mk true (some "ดูแผนที่ [IMAGE:map] ครับ".data) none [] [] true

/-- Witness environment: a fresh cached answer whose directive tag is not
in the media catalog. -/
def envC8 : Env := Env.mk true (some "คำตอบ [IMAGE:unknown_tag] ครับ".data) none [] [] true

/-- Witness environment: cache miss and a short (five characters or fewer)
generated answer. -/
def envC9 : Env := Env.mk true none (some "ok".data) [] [] true

/-- Witness environment: a fresh cached answer that consists of a
known-tag directive and whitespace only. -/
def envC10 : Env := Env.mk true (some "  [IMAGE:map]  ".data) none [] [] true

/-! Basic lemmas about the text primitives. -/

theorem isPre_iff {p cs : List Char} : isPre p cs = true ↔ ∃ r, cs = p ++ r := by
  induction p generalizing cs with
  | nil => simp [isPre]
  | cons a as ih =>
    cases cs with
    | nil => simp [isPre]
    | cons b bs =>
      simp only [isPre, Bool.and_eq_true, beq_iff_eq, ih]
      constructor
      · rintro ⟨rfl, r, rfl⟩
        exact ⟨r, rfl⟩
      · rintro ⟨r, h⟩
        cases h
        exact ⟨rfl, r, rfl⟩

theorem takeWordChars_append (cs : List Char) :
    (takeWordChars cs).1 ++ (takeWordChars cs).2 = cs := by
  induction cs with
  | nil => simp [takeWordChars]
  | cons c rest ih =>
    by_cases h : isWordChar c
    · simp [takeWordChars, h, ih]
    · simp [takeWordChars, h]

theorem takeWordChars_all (cs : List Char) :
    (takeWordChars cs).1.all isWordChar = true := by
  induction cs with
  | nil => simp [takeWordChars]
  | cons c rest ih =>
    by_cases h : isWordChar c
    · simp [takeWordChars, h, ih]
    · simp [takeWordChars, h]

theorem matchAt_some {cs tag : List Char} (h : matchAt cs = some tag) :
    tag ≠ [] ∧ tag.all isWordChar = true ∧ ∃ r, cs = dirSubstring tag ++ r := by
  unfold matchAt at h
  split at h
  case isFalse hpre => exact absurd h (by simp)
  case isTrue hpre =>
    split at h
    case isTrue hw => exact absurd h (by simp)
    case isFalse hw =>
      split at h
      case h_2 => exact absurd h (by simp)
      case h_1 c r2 heq =>
        simp only [Option.some.injEq] at h
        subst h
        obtain ⟨r, hr⟩ := isPre_iff.mp hpre
        have hdrop : cs.drop IMAGE_OPEN.length = r := by
          rw [hr]; simp [IMAGE_OPEN]
        rw [hdrop] at hw heq ⊢
        refine ⟨hw, takeWordChars_all _, r2, ?_⟩
        have hsplit := takeWordChars_append r
        rw [heq] at hsplit
        generalize hwdef : (takeWordChars r).1 = w at hsplit ⊢
        rw [hr, ← hsplit]
        simp [dirSubstring]

theorem countOcc_cons_ge (pat : List Char) (c : Char) (rest : List Char) :
    countOcc pat rest ≤ countOcc pat (c :: rest) := by
  simp only [countOcc]
  omega

theorem countOcc_pos_of_isPre {pat cs : List Char} (hne : cs ≠ [])
    (h : isPre pat cs = true) : 1 ≤ countOcc pat cs := by
  cases cs with
  | nil => exact absurd rfl hne
  | cons c rest => simp [countOcc, h]

theorem findDirective_some {cs tag : List Char} (h : findDirective cs = some tag) :
    tag ≠ [] ∧ tag.all isWordChar = true ∧ 1 ≤ countOcc (dirSubstring tag) cs := by
  induction cs with
  | nil => simp [findDirective] at h
  | cons c rest ih =>
    rw [findDirective] at h
    rcases hm : matchAt (c :: rest) with _ | w
    · rw [hm] at h
      obtain ⟨h1, h2, h3⟩ := ih h
      exact ⟨h1, h2, le_trans h3 (countOcc_cons_ge _ _ _)⟩
    · rw [hm] at h
      simp only [Option.some.injEq] at h
      subst h
      obtain ⟨h1, h2, r, hr⟩ := matchAt_some hm
      refine ⟨h1, h2, ?_⟩
      apply countOcc_pos_of_isPre (by simp)
      exact isPre_iff.mpr ⟨r, hr⟩

theorem countOcc_drop_le (pat : List Char) :
    ∀ (n : Nat) (cs : List Char), countOcc pat (cs.drop n) ≤ countOcc pat cs := by
  intro n
  induction n with
  | zero => simp
  | succ m ih =>
    intro cs
    cases cs with
    | nil => simp
    | cons c rest =>
      calc countOcc pat ((c :: rest).drop (m + 1)) = countOcc pat (rest.drop m) := by simp
        _ ≤ countOcc pat rest := ih rest
        _ ≤ countOcc pat (c :: rest) := countOcc_cons_ge _ _ _

theorem removeAllAux_of_countOcc_zero {pat : List Char} :
    ∀ (fuel : Nat) (cs : List Char), countOcc pat cs = 0 →
      removeAllAux pat fuel cs = cs := by
  intro fuel
  induction fuel with
  | zero => intro cs h; cases cs <;> rfl
  | succ f ih =>
    intro cs h
    cases cs with
    | nil => rfl
    | cons c rest =>
      rw [countOcc] at h
      have hnp : isPre pat (c :: rest) = false := by
        cases hp : isPre pat (c :: rest) with
        | true => simp [hp] at h
        | false => rfl
      have hp0 : pat ≠ [] := by
        intro he
        subst he
        simp [isPre] at hnp
      rw [removeAllAux]
      simp only [hp0, if_false, hnp, Bool.false_eq_true, if_false]
      have : countOcc pat rest = 0 := by omega
      rw [ih rest this]

theorem removeAllAux_eq_removeFirst {pat : List Char} :
    ∀ (fuel : Nat) (cs : List Char), cs.length ≤ fuel → countOcc pat cs = 1 →
      removeAllAux pat fuel cs = removeFirstOccurrence pat cs := by
  intro fuel
  induction fuel with
  | zero =>
    intro cs hlen h
    cases cs with
    | nil => simp [countOcc] at h
    | cons c rest => simp at hlen
  | succ f ih =>
    intro cs hlen h
    cases cs with
    | nil => simp [countOcc] at h
    | cons c rest =>
      rw [countOcc] at h
      by_cases hp0 : pat = []
      · subst hp0
        simp only [isPre, if_true] at h
        have hrest : countOcc [] rest = 0 := by omega
        have hrfl : rest = [] := by
          cases rest with
          | nil => rfl
          | cons d ds => rw [countOcc] at hrest; simp [isPre] at hrest
        subst hrfl
        simp [removeAllAux, removeFirstOccurrence, isPre]
      · cases hpre : isPre pat (c :: rest) with
        | true =>
          simp only [hpre, if_true] at h
          have hdz : countOcc pat ((c :: rest).drop pat.length) = 0 := by
            have hlen0 : 0 < pat.length := List.length_pos.mpr hp0
            have : countOcc pat ((c :: rest).drop pat.length)
                ≤ countOcc pat (rest.drop (pat.length - 1)) := by
              cases hpl : pat.length with
              | zero => omega
              | succ k => simp [hpl]
            have h2 := countOcc_drop_le pat (pat.length - 1) rest
            omega
          rw [removeAllAux]
          simp only [hp0, if_false, hpre, if_true]
          rw [removeAllAux_of_countOcc_zero f _ hdz]
          rw [removeFirstOccurrence]
          simp [hpre]
        | false =>
          simp only [hpre, Bool.false_eq_true, if_false] at h
          have hrest : countOcc pat rest = 1 := by omega
          have hlen2 : rest.length ≤ f := by
            simp only [List.length_cons] at hlen
            omega
          rw [removeAllAux]
          simp only [hp0, if_false, hpre, Bool.false_eq_true, if_false]
          rw [removeFirstOccurrence]
          simp only [hpre, Bool.false_eq_true, if_false]
          rw [ih rest hlen2 hrest]

theorem removeAll_eq_removeFirst_of_countOcc_one {pat cs : List Char}
    (h : countOcc pat cs = 1) :
    removeAll pat cs = removeFirstOccurrence pat cs :=
  removeAllAux_eq_removeFirst cs.length cs le_rfl h

/-! Lemmas for the history block. -/

theorem foldl_formatHistTurn (l : List Turn) (init : List Char) :
    l.foldl (fun acc t => acc ++ formatHistTurn t) init
      = init ++ (l.map formatHistTurn).flatten := by
  induction l generalizing init with
  | nil => simp
  | cons t rest ih => simp [ih, List.append_assoc]

theorem reverse_take_reverse (l : List Turn) (n : Nat) :
    (l.reverse.take n).reverse = l.drop (l.length - n) := by
  rw [List.reverse_take]
  simp

/-! Lemmas about occurrence positions. -/

theorem isPre_append_right {pat x : List Char} (B : List Char)
    (h : isPre pat x = true) : isPre pat (x ++ B) = true := by
  obtain ⟨r, rfl⟩ := isPre_iff.mp h
  exact isPre_iff.mpr ⟨r ++ B, by simp⟩

theorem isPre_self_append (p r : List Char) : isPre p (p ++ r) = true :=
  isPre_iff.mpr ⟨r, rfl⟩

theorem drop_append_le {A : List Char} (B : List Char) {i : Nat} (h : i ≤ A.length) :
    (A ++ B).drop i = A.drop i ++ B := by
  induction A generalizing i with
  | nil =>
    simp at h
    subst h
    simp
  | cons a as ih =>
    cases i with
    | zero => simp
    | succ j =>
      simp only [List.length_cons, Nat.succ_le_succ_iff] at h
      simp [ih h]

theorem drop_append_add (A B : List Char) (n : Nat) :
    (A ++ B).drop (A.length + n) = B.drop n := by
  induction A with
  | nil => simp
  | cons a as ih => simp [Nat.succ_add, ih]

theorem occursAt_mono {A : List Char} (B : List Char) {pat : List Char} {i : Nat}
    (hi : i ≤ A.length) (h : occursAt A pat i = true) :
    occursAt (A ++ B) pat i = true := by
  unfold occursAt at h ⊢
  rw [drop_append_le B hi]
  exact isPre_append_right B h

theorem occursAt_shift (A : List Char) {B pat : List Char} {n : Nat}
    (h : occursAt B pat n = true) :
    occursAt (A ++ B) pat (A.length + n) = true := by
  unfold occursAt at h ⊢
  rw [drop_append_add]
  exact h

/-! The claims. -/

/-- C6: the cache store operation writes an entry exactly when the
persistence backend is available and the trimmed question's length is at
least 2 and at most 200 characters, so a normalized length of 1 or of 201
is never stored and a length of 50 is stored given a backend. -/
theorem c6_cache_store_band (available : Bool) (message response : List Char) :
    (save_to_cache available message response).isSome
      ↔ available = true
        ∧ 2 ≤ (strip message).length ∧ (strip message).length ≤ 200 := by
  unfold save_to_cache
  cases available with
  | false => simp
  | true =>
    by_cases h : (strip message).length < 2 ∨ 200 < (strip message).length
    · simp only [if_pos h, if_true]
      simp
      omega
    · simp only [if_neg h, if_true]
      simp
      omega

/-- C7: history retrieval with the backend available returns the block of
the most recent `L` turns of the conversation in oldest-to-newest order,
each formatted as a `[SPEAKER]: text` line between the start and end
marker lines, and the number of returned turns is the minimum of `L` and
the conversation length (so limit 8 over 20 turns yields exactly 8); with
the backend unavailable or an empty conversation the result is the empty
block, never an error. -/
theorem c7_history_block (turns : List Turn) (L : Nat)
    (h1 : turns ≠ []) (h2 : L ≠ 0) :
    get_chat_history true turns L
      = HIST_HEADER.data
        ++ ((turns.drop (turns.length - L)).map formatHistTurn).flatten
        ++ HIST_FOOTER.data
    ∧ (turns.drop (turns.length - L)).length = min L turns.length
    ∧ get_chat_history false turns L = []
    ∧ get_chat_history true ([] : List Turn) L = [] := by
  refine ⟨?_, ?_, ?_, ?_⟩
  · unfold get_chat_history
    have hne : turns.reverse.take L ≠ [] := by
      cases L with
      | zero => exact absurd rfl h2
      | succ k =>
        rcases hrev : turns.reverse with _ | ⟨t, ts⟩
        · exact absurd (by simpa using hrev) h1
        · simp [List.take]
    rw [if_pos rfl, if_neg hne, foldl_formatHistTurn, reverse_take_reverse]
  · simp only [List.length_drop]
    omega
  · simp [get_chat_history]
  · simp [get_chat_history]

/-- C7 witness: the claim instantiated at a conversation holding twenty
prior turns and limit 8. -/
theorem c7_witness :
    get_chat_history true hist20 8
      = HIST_HEADER.data
        ++ ((hist20.drop (hist20.length - 8)).map formatHistTurn).flatten
        ++ HIST_FOOTER.data
    ∧ (hist20.drop (hist20.length - 8)).length = min 8 hist20.length
    ∧ get_chat_history false hist20 8 = []
    ∧ get_chat_history true ([] : List Turn) 8 = [] :=
  c7_history_block hist20 8 (by decide) (by decide)

/-- C1 counterexample: on the raw answer `[IMAGE:map] x [IMAGE:map]` the
code captures the tag and removes BOTH occurrences of the directive
substring (the visible reply is `x`), whereas removing the first
occurrence only and trimming would leave `x [IMAGE:map]`; so the second
occurrence does not remain in the visible reply, contrary to the claim. -/
theorem c1_counterexample :
    extract_directive "[IMAGE:map] x [IMAGE:map]".data
      = (some "map".data, "x".data)
    ∧ strip (removeFirstOccurrence (dirSubstring "map".data)
        "[IMAGE:map] x [IMAGE:map]".data) = "x [IMAGE:map]".data
    ∧ "x".data ≠ "x [IMAGE:map]".data := by
  decide

/-- C1 (amended): directive extraction finds at most one directive, whose
tag is a non-empty run of word characters and whose full bracketed
substring occurs in the raw text; the visible reply is the raw text with
EVERY occurrence of that directive substring removed and then trimmed;
when the directive substring occurs exactly once this coincides with
removing just that first occurrence and trimming. -/
theorem c1_directive_extraction (raw tag cleaned : List Char)
    (h : extract_directive raw = (some tag, cleaned)) :
    tag ≠ [] ∧ tag.all isWordChar = true
    ∧ 1 ≤ countOcc (dirSubstring tag) raw
    ∧ cleaned = strip (removeAll (dirSubstring tag) raw)
    ∧ (countOcc (dirSubstring tag) raw = 1 →
        cleaned = strip (removeFirstOccurrence (dirSubstring tag) raw)) := by
  unfold extract_directive at h
  rcases hf : findDirective raw with _ | t
  · rw [hf] at h
    simp at h
  · rw [hf] at h
    simp only [Prod.mk.injEq, Option.some.injEq] at h
    obtain ⟨rfl, rfl⟩ := h
    obtain ⟨p1, p2, p3⟩ := findDirective_some hf
    refine ⟨p1, p2, p3, rfl, ?_⟩
    intro hcnt
    rw [removeAll_eq_removeFirst_of_countOcc_one hcnt]

/-- C1 witness: the amended claim instantiated at a raw answer holding one
`[IMAGE:map]` directive. -/
theorem c1_witness :
    "map".data ≠ [] ∧ "map".data.all isWordChar = true
    ∧ 1 ≤ countOcc (dirSubstring "map".data) "hi [IMAGE:map] there".data
    ∧ "hi  there".data
        = strip (removeAll (dirSubstring "map".data) "hi [IMAGE:map] there".data)
    ∧ (countOcc (dirSubstring "map".data) "hi [IMAGE:map] there".data = 1 →
        "hi  there".data
          = strip (removeFirstOccurrence (dirSubstring "map".data)
              "hi [IMAGE:map] there".data)) :=
  c1_directive_extraction "hi [IMAGE:map] there".data "map".data "hi  there".data
    (by decide)

/-! Lemmas decomposing the pipeline trace. -/

theorem trace_eq (env : Env) (msg : List Char) (hm : ¬ msg = []) :
    handle_message env (some msg)
      = pre_effects env msg
        ++ ((if (extract_directive (response_text_of env)).2 = [] then []
             else [Effect.sendMessage (extract_directive (response_text_of env)).2])
          ++ ((dispatch_and_log env (extract_directive (response_text_of env)).1
                (extract_directive (response_text_of env)).2).1
            ++ persist_effects env msg (response_text_of env)
                 (extract_directive (response_text_of env)).2
                 (dispatch_and_log env (extract_directive (response_text_of env)).1
                   (extract_directive (response_text_of env)).2).2)) := by
  simp only [handle_message]
  rw [if_neg hm]
  simp [List.append_assoc]

theorem pre_effects_cached (env : Env) (m : List Char)
    (h : is_cached_of env = true) : pre_effects env m = [] := by
  unfold pre_effects
  rw [if_pos h]

theorem persist_effects_cached (env : Env) (m r cl fl : List Char)
    (h : is_cached_of env = true) : persist_effects env m r cl fl = [] := by
  unfold persist_effects
  rw [if_pos h]

theorem save_chat_history_filters (av : Bool) (s : String) (m : List Char) :
    (save_chat_history av s m).filter Effect.isSendText = []
    ∧ (save_chat_history av s m).filter Effect.isMediaSend = []
    ∧ (save_chat_history av s m).filter Effect.isCacheWrite = [] := by
  cases av <;> exact ⟨rfl, rfl, rfl⟩

theorem pre_effects_filters (env : Env) (m : List Char) :
    (pre_effects env m).filter Effect.isCacheWrite = []
    ∧ (pre_effects env m).filter Effect.isSendText = []
    ∧ (pre_effects env m).filter Effect.isMediaSend = []
    ∧ (pre_effects env m).filter Effect.isBotLog = [] := by
  unfold pre_effects save_chat_history
  by_cases h : is_cached_of env = true
  · rw [if_pos h]
    exact ⟨rfl, rfl, rfl, rfl⟩
  · rw [if_neg h]
    cases hav : env.supabaseAvailable <;> exact ⟨rfl, rfl, rfl, rfl⟩

theorem dispatch_and_log_filters (env : Env) (tagOpt : Option (List Char))
    (cleaned : List Char) :
    (dispatch_and_log env tagOpt cleaned).1.filter Effect.isCacheWrite = []
    ∧ (dispatch_and_log env tagOpt cleaned).1.filter Effect.isSendText = []
    ∧ (dispatch_and_log env tagOpt cleaned).1.filter Effect.isBotLog = []
    ∧ (dispatch_and_log env tagOpt cleaned).1.filter Effect.isMediaSend
        = (dispatch_and_log env tagOpt cleaned).1
    ∧ (dispatch_and_log env tagOpt cleaned).1.all Effect.isOutbound = true := by
  rcases tagOpt with _ | tag
  · exact ⟨rfl, rfl, rfl, rfl, rfl⟩
  · simp only [dispatch_and_log]
    rcases hI : IMAGE_LOOKUP (String.mk tag) with _ | ⟨payload, caption⟩
    · exact ⟨rfl, rfl, rfl, rfl, rfl⟩
    · cases payload <;> exact ⟨rfl, rfl, rfl, rfl, rfl⟩

theorem persist_effects_filters (env : Env) (m r cl fl : List Char) :
    (persist_effects env m r cl fl).filter Effect.isSendText = []
    ∧ (persist_effects env m r cl fl).filter Effect.isMediaSend = [] := by
  unfold persist_effects
  by_cases h : is_cached_of env = true
  · rw [if_pos h]
    exact ⟨rfl, rfl⟩
  · rw [if_neg h]
    have h1 := save_chat_history_filters env.supabaseAvailable "bot" fl
    by_cases hc : cl ≠ [] ∧ 5 < cl.length
    · rw [if_pos hc]
      rcases hs : save_to_cache env.supabaseAvailable m r with _ | qa <;>
        simp [List.filter_append, h1.1, h1.2.1, List.filter, Effect.isSendText,
          Effect.isMediaSend]
    · rw [if_neg hc]
      simp [List.filter_append, h1.1, h1.2.1]

theorem dispatch_none (env : Env) (tag cleaned : List Char)
    (hI : IMAGE_LOOKUP (String.mk tag) = none) :
    dispatch_and_log env (some tag) cleaned = ([], cleaned) := by
  simp only [dispatch_and_log]
  rw [hI]

theorem dispatch_some (env : Env) (tag cleaned : List Char)
    (pc : MediaPayload × String) (hI : IMAGE_LOOKUP (String.mk tag) = some pc) :
    dispatch_and_log env (some tag) cleaned
      = (media_effects pc.1 pc.2,
         if env.mediaSendOk then cleaned ++ sentImageMarker tag else cleaned) := by
  simp only [dispatch_and_log]
  rw [hI]

theorem extract_some_find {r tag cleaned : List Char}
    (hx : extract_directive r = (some tag, cleaned)) :
    findDirective r = some tag := by
  unfold extract_directive at hx
  revert hx
  rcases hf : findDirective r with _ | t
  · intro hx
    simp at hx
  · intro hx
    simp only [Prod.mk.injEq, Option.some.injEq] at hx
    rw [hx.1]

theorem persist_filter_cacheWrite (env : Env) (m r cl fl : List Char)
    (h : is_cached_of env = false) :
    (persist_effects env m r cl fl).filter Effect.isCacheWrite
      = if cl ≠ [] ∧ 5 < cl.length then
          (match save_to_cache env.supabaseAvailable m r with
           | some qa => [Effect.cacheWrite qa.1 qa.2]
           | none => [])
        else [] := by
  unfold persist_effects
  rw [if_neg (by simp [h]), List.filter_append,
    (save_chat_history_filters env.supabaseAvailable "bot" fl).2.2]
  by_cases hc : cl ≠ [] ∧ 5 < cl.length
  · rw [if_pos hc]
    rcases hs : save_to_cache env.supabaseAvailable m r with _ | qa <;> rfl
  · rw [if_neg hc]
    rfl

theorem persist_filter_botLog (env : Env) (m r cl fl : List Char)
    (h : is_cached_of env = false) (hav : env.supabaseAvailable = true) :
    (persist_effects env m r cl fl).filter Effect.isBotLog
      = [Effect.historyWrite "bot" fl] := by
  unfold persist_effects save_chat_history
  rw [if_neg (by simp [h]), hav, List.filter_append]
  have h2 : (if (true : Bool) then [Effect.historyWrite "bot" fl] else []).filter
      Effect.isBotLog = [Effect.historyWrite "bot" fl] := rfl
  rw [h2]
  by_cases hc : cl ≠ [] ∧ 5 < cl.length
  · rw [if_pos hc]
    rcases hs : save_to_cache true m r with _ | qa <;> simp [Effect.isBotLog]
  · rw [if_neg hc]
    simp

theorem media_effects_filter (p : MediaPayload) (c : String) :
    (media_effects p c).filter Effect.isMediaSend = media_effects p c
    ∧ (media_effects p c).filter Effect.isSendText = [] := by
  cases p <;> exact ⟨rfl, rfl⟩

theorem response_text_hit (env : Env) (a : List Char)
    (hav : env.supabaseAvailable = true) (hc : env.cachedAnswer = some a)
    (ha : ¬ a = []) :
    response_text_of env = a ∧ is_cached_of env = true := by
  rcases a with _ | ⟨x, xs⟩
  · exact absurd rfl ha
  · constructor
    · simp [response_text_of, get_cached_response, hav, hc]
    · simp [is_cached_of, get_cached_response, hav, hc]

/-- C4: on a cache hit (a fresh truthy cached answer) the pipeline trace
is exactly the reply-and-media-dispatch segment computed by directive
extraction over the cached answer: every effect is an outbound send, so
no history fetch, no generation call (hence no prompt composition), no
conversation-log write and no cache write occur, while directive
extraction, the text reply and media dispatch still run. -/
theorem c4_cache_hit_frame (env : Env) (msg a : List Char)
    (hav : env.supabaseAvailable = true) (hc : env.cachedAnswer = some a)
    (ha : ¬ a = []) (hm : ¬ msg = []) :
    handle_message env (some msg)
      = (if (extract_directive a).2 = [] then []
         else [Effect.sendMessage (extract_directive a).2])
        ++ (dispatch_and_log env (extract_directive a).1 (extract_directive a).2).1
    ∧ (handle_message env (some msg)).all Effect.isOutbound = true := by
  obtain ⟨hr, hic⟩ := response_text_hit env a hav hc ha
  have ht := trace_eq env msg hm
  rw [hr, pre_effects_cached env msg hic,
    persist_effects_cached env msg a _ _ hic] at ht
  constructor
  · rw [ht]
    simp
  · rw [ht]
    simp only [List.nil_append, List.append_nil, List.all_append, Bool.and_eq_true]
    constructor
    · by_cases he : (extract_directive a).2 = [] <;> simp [he, Effect.isOutbound]
    · exact (dispatch_and_log_filters env _ _).2.2.2.2

/-- C4 witness: the claim instantiated at a fresh cached answer carrying a
`map` directive. -/
theorem c4_witness :
    handle_message envC4 (some "hello".data)
      = (if (extract_directive "ดูแผนที่ [IMAGE:map] ครับ".data).2 = [] then []
         else [Effect.sendMessage (extract_directive "ดูแผนที่ [IMAGE:map] ครับ".data).2])
        ++ (dispatch_and_log envC4 (extract_directive "ดูแผนที่ [IMAGE:map] ครับ".data).1
              (extract_directive "ดูแผนที่ [IMAGE:map] ครับ".data).2).1
    ∧ (handle_message envC4 (some "hello".data)).all Effect.isOutbound = true :=
  c4_cache_hit_frame envC4 "hello".data "ดูแผนที่ [IMAGE:map] ครับ".data rfl rfl
    (by decide) (by decide)

/-- C2: on a cache miss whose answer contains a directive (persistence
available), the cache write — when the quality guard admits one — stores
the raw unstripped answer (which still contains the directive substring,
witnessed by the positive occurrence count); the outbound text is the
stripped visible reply; the logged bot turn is the final logged text,
which is the stripped reply plus the sent-image marker exactly when the
tag resolves in the catalog and the media send succeeded, and the plain
stripped reply otherwise. -/
theorem c2_miss_persistence (env : Env) (msg tag cleaned : List Char)
    (hav : env.supabaseAvailable = true)
    (hmiss : is_cached_of env = false)
    (hm : ¬ msg = [])
    (hx : extract_directive (response_text_of env) = (some tag, cleaned)) :
    1 ≤ countOcc (dirSubstring tag) (response_text_of env)
    ∧ (handle_message env (some msg)).filter Effect.isCacheWrite
        = (if cleaned ≠ [] ∧ 5 < cleaned.length then
             match save_to_cache true msg (response_text_of env) with
             | some qa => [Effect.cacheWrite qa.1 qa.2]
             | none => []
           else [])
    ∧ (handle_message env (some msg)).filter Effect.isSendText
        = (if cleaned = [] then [] else [Effect.sendMessage cleaned])
    ∧ (handle_message env (some msg)).filter Effect.isBotLog
        = [Effect.historyWrite "bot" (dispatch_and_log env (some tag) cleaned).2]
    ∧ (dispatch_and_log env (some tag) cleaned).2
        = (if (IMAGE_LOOKUP (String.mk tag)).isSome ∧ env.mediaSendOk = true
           then cleaned ++ sentImageMarker tag else cleaned) := by
  have hocc := (findDirective_some (extract_some_find hx)).2.2
  have ht : handle_message env (some msg)
      = pre_effects env msg
        ++ ((if cleaned = [] then [] else [Effect.sendMessage cleaned])
          ++ ((dispatch_and_log env (some tag) cleaned).1
            ++ persist_effects env msg (response_text_of env) cleaned
                 (dispatch_and_log env (some tag) cleaned).2)) := by
    rw [trace_eq env msg hm, hx]
  refine ⟨hocc, ?_, ?_, ?_, ?_⟩
  · rw [ht]
    simp only [List.filter_append, (pre_effects_filters env msg).1,
      (dispatch_and_log_filters env (some tag) cleaned).1,
      persist_filter_cacheWrite env msg (response_text_of env) cleaned _ hmiss, hav]
    by_cases he : cleaned = [] <;> simp [he, List.filter, Effect.isCacheWrite]
  · rw [ht]
    simp only [List.filter_append, (pre_effects_filters env msg).2.1,
      (dispatch_and_log_filters env (some tag) cleaned).2.1,
      (persist_effects_filters env msg (response_text_of env) cleaned _).1]
    by_cases he : cleaned = [] <;> simp [he, List.filter, Effect.isSendText]
  · rw [ht]
    simp only [List.filter_append, (pre_effects_filters env msg).2.2.2,
      (dispatch_and_log_filters env (some tag) cleaned).2.2.1,
      persist_filter_botLog env msg (response_text_of env) cleaned _ hmiss hav]
    by_cases he : cleaned = [] <;> simp [he, List.filter, Effect.isBotLog]
  · rcases hI : IMAGE_LOOKUP (String.mk tag) with _ | pc
    · rw [dispatch_none env tag cleaned hI]
      simp [hI]
    · rw [dispatch_some env tag cleaned pc hI]
      cases hmk : env.mediaSendOk <;> simp [hI, hmk]

/-- C2 witness: the claim instantiated at a miss whose generated answer
holds one `map` directive, with a successful media send. -/
theorem c2_witness :
    1 ≤ countOcc (dirSubstring "map".data) (response_text_of envC2)
    ∧ (handle_message envC2 (some "hello".data)).filter Effect.isCacheWrite
        = (if "มีครับ  ดูเลย".data ≠ [] ∧ 5 < "มีครับ  ดูเลย".data.length then
             match save_to_cache true "hello".data (response_text_of envC2) with
             | some qa => [Effect.cacheWrite qa.1 qa.2]
             | none => []
           else [])
    ∧ (handle_message envC2 (some "hello".data)).filter Effect.isSendText
        = (if "มีครับ  ดูเลย".data = [] then []
           else [Effect.sendMessage "มีครับ  ดูเลย".data])
    ∧ (handle_message envC2 (some "hello".data)).filter Effect.isBotLog
        = [Effect.historyWrite "bot"
            (dispatch_and_log envC2 (some "map".data) "มีครับ  ดูเลย".data).2]
    ∧ (dispatch_and_log envC2 (some "map".data) "มีครับ  ดูเลย".data).2
        = (if (IMAGE_LOOKUP (String.mk "map".data)).isSome ∧ envC2.mediaSendOk = true
           then "มีครับ  ดูเลย".data ++ sentImageMarker "map".data
           else "มีครับ  ดูเลย".data) :=
  c2_miss_persistence envC2 "hello".data "map".data "มีครับ  ดูเลย".data rfl
    (by decide) (by decide) (by decide)

/-- C8: when the answer's directive tag is absent from the media catalog,
no media-send call occurs (the lookup miss is not an error) and the
visible reply — with the directive already stripped — is sent as-is when
non-empty. -/
theorem c8_unknown_tag (env : Env) (msg tag cleaned : List Char)
    (hm : ¬ msg = [])
    (hx : extract_directive (response_text_of env) = (some tag, cleaned))
    (hI : IMAGE_LOOKUP (String.mk tag) = none) :
    (handle_message env (some msg)).filter Effect.isMediaSend = []
    ∧ (handle_message env (some msg)).filter Effect.isSendText
        = (if cleaned = [] then [] else [Effect.sendMessage cleaned]) := by
  have ht : handle_message env (some msg)
      = pre_effects env msg
        ++ ((if cleaned = [] then [] else [Effect.sendMessage cleaned])
          ++ ((dispatch_and_log env (some tag) cleaned).1
            ++ persist_effects env msg (response_text_of env) cleaned
                 (dispatch_and_log env (some tag) cleaned).2)) := by
    rw [trace_eq env msg hm, hx]
  rw [dispatch_none env tag cleaned hI] at ht
  constructor
  · rw [ht]
    simp only [List.filter_append, (pre_effects_filters env msg).2.2.1,
      (persist_effects_filters env msg (response_text_of env) cleaned _).2]
    by_cases he : cleaned = [] <;> simp [he, List.filter, Effect.isMediaSend]
  · rw [ht]
    simp only [List.filter_append, (pre_effects_filters env msg).2.1,
      (persist_effects_filters env msg (response_text_of env) cleaned _).1]
    by_cases he : cleaned = [] <;> simp [he, List.filter, Effect.isSendText]

/-- C8 witness: the claim instantiated at a cached answer carrying the
catalog-absent tag `unknown_tag`. -/
theorem c8_witness :
    (handle_message envC8 (some "hello".data)).filter Effect.isMediaSend = []
    ∧ (handle_message envC8 (some "hello".data)).filter Effect.isSendText
        = (if "คำตอบ  ครับ".data = [] then []
           else [Effect.sendMessage "คำตอบ  ครับ".data]) :=
  c8_unknown_tag envC8 "hello".data "unknown_tag".data "คำตอบ  ครับ".data
    (by decide) (by decide) (by decide)

/-- C9: on a cache miss the response-cache writes of the trace are gated
exactly by the visible reply being non-empty and strictly longer than 5
characters; when the visible reply is 5 characters or shorter the trace
holds no cache write, whatever the question length, and when the guard
passes the write is whatever the band-checked store yields for the raw
answer. -/
theorem c9_cache_quality_guard (env : Env) (msg : List Char)
    (hmiss : is_cached_of env = false) (hm : ¬ msg = []) :
    (handle_message env (some msg)).filter Effect.isCacheWrite
      = (if (extract_directive (response_text_of env)).2 ≠ []
            ∧ 5 < (extract_directive (response_text_of env)).2.length then
           match save_to_cache env.supabaseAvailable msg (response_text_of env) with
           | some qa => [Effect.cacheWrite qa.1 qa.2]
           | none => []
         else []) := by
  rw [trace_eq env msg hm]
  simp only [List.filter_append, (pre_effects_filters env msg).1,
    (dispatch_and_log_filters env (extract_directive (response_text_of env)).1
      (extract_directive (response_text_of env)).2).1,
    persist_filter_cacheWrite env msg (response_text_of env)
      (extract_directive (response_text_of env)).2 _ hmiss]
  by_cases he : (extract_directive (response_text_of env)).2 = [] <;>
    simp [he, List.filter, Effect.isCacheWrite]

/-- C9 witness: the claim instantiated at a miss whose generated answer is
the two-character text `ok` (so the guard rejects the write) while the
question is inside the 2-200 band. -/
theorem c9_witness :
    (handle_message envC9 (some "hello".data)).filter Effect.isCacheWrite
      = (if (extract_directive (response_text_of envC9)).2 ≠ []
            ∧ 5 < (extract_directive (response_text_of envC9)).2.length then
           match save_to_cache envC9.supabaseAvailable "hello".data
               (response_text_of envC9) with
           | some qa => [Effect.cacheWrite qa.1 qa.2]
           | none => []
         else []) :=
  c9_cache_quality_guard envC9 "hello".data (by decide) (by decide)

/-- C10: when stripping the directive leaves an empty visible reply, no
text message is sent at all, while the media dispatch for a
catalog-resolvable tag still occurs. -/
theorem c10_empty_visible_reply (env : Env) (msg tag : List Char)
    (pc : MediaPayload × String) (hm : ¬ msg = [])
    (hx : extract_directive (response_text_of env) = (some tag, []))
    (hI : IMAGE_LOOKUP (String.mk tag) = some pc) :
    (handle_message env (some msg)).filter Effect.isSendText = []
    ∧ (handle_message env (some msg)).filter Effect.isMediaSend
        = media_effects pc.1 pc.2 := by
  have ht : handle_message env (some msg)
      = pre_effects env msg
        ++ (([] : List Effect)
          ++ ((dispatch_and_log env (some tag) []).1
            ++ persist_effects env msg (response_text_of env) []
                 (dispatch_and_log env (some tag) []).2)) := by
    rw [trace_eq env msg hm, hx]
    simp
  rw [dispatch_some env tag [] pc hI] at ht
  constructor
  · rw [ht]
    simp only [List.filter_append, (pre_effects_filters env msg).2.1,
      (persist_effects_filters env msg (response_text_of env) [] _).1,
      (media_effects_filter pc.1 pc.2).2]
    simp
  · rw [ht]
    simp only [List.filter_append, (pre_effects_filters env msg).2.2.1,
      (persist_effects_filters env msg (response_text_of env) [] _).2,
      (media_effects_filter pc.1 pc.2).1]
    simp

/-- C10 witness: the claim instantiated at a cached answer consisting of a
`map` directive and surrounding whitespace only. -/
theorem c10_witness :
    (handle_message envC10 (some "hello".data)).filter Effect.isSendText = []
    ∧ (handle_message envC10 (some "hello".data)).filter Effect.isMediaSend
        = media_effects
            (MediaPayload.single
              "https://squqrsinrzpqbvbnirzw.supabase.co/storage/v1/object/public/nvc_images/map.png")
            "แผนที่วิทยาลัย" :=
  c10_empty_visible_reply envC10 "hello".data "map".data
    (MediaPayload.single
      "https://squqrsinrzpqbvbnirzw.supabase.co/storage/v1/object/public/nvc_images/map.png",
     "แผนที่วิทยาลัย")
    (by decide) (by decide) (by decide)

/-- C3 (code evaluation): with persistence available, a cache miss and a
generator returning no usable text, the fixed fallback message is logged
as the bot's turn, as the claim states, but it is ALSO written to the
response cache (its length 48 passes the quality guard and the question
is inside the band), contradicting the claim that the fallback is never
cached. -/
theorem c3_fallback_cache_behavior :
    (handle_message envC3 (some "สวัสดีครับ".data)).filter Effect.isBotLog
      = [Effect.historyWrite "bot" FALLBACK.data]
    ∧ (handle_message envC3 (some "สวัสดีครับ".data)).filter Effect.isCacheWrite
      = [Effect.cacheWrite "สวัสดีครับ".data FALLBACK.data] := by
  decide

theorem occursAt_here (x r : List Char) : occursAt (x ++ r) x 0 = true := by
  unfold occursAt
  simp [isPre_self_append]

theorem countOcc_single_append (c : Char) (A B : List Char) :
    countOcc [c] (A ++ B) = countOcc [c] A + countOcc [c] B := by
  induction A with
  | nil => simp [countOcc]
  | cons a as ih =>
    show (if isPre [c] (a :: (as ++ B)) = true then 1 else 0) + countOcc [c] (as ++ B)
        = (if isPre [c] (a :: as) = true then 1 else 0) + countOcc [c] as
          + countOcc [c] B
    have hh : isPre [c] (a :: (as ++ B)) = isPre [c] (a :: as) := by simp [isPre]
    rw [hh, ih]
    omega

set_option maxRecDepth 4000 in
/-- C5 counterexample: composing the prompt over empty reference text and
history and the one-character question text, the question text occurs in
the prompt exactly once, at position 551, while the picture-frame
character that opens the directive-catalog instructions occurs exactly
once, at position 591; the question therefore precedes the catalog
instructions, refuting the claimed order (catalog instructions, then the
verbatim question). -/
theorem c5_counterexample :
    countOcc ['♞'] (gemini_prompt [] [] ['♞']) = 1
    ∧ countOcc ['🖼'] (gemini_prompt [] [] ['♞']) = 1
    ∧ occursAt (gemini_prompt [] [] ['♞']) ['♞'] 551 = true
    ∧ occursAt (gemini_prompt [] [] ['♞']) ['🖼'] 591 = true
    ∧ 551 < 591 := by
  have L1 : promptPart1.data.length = 440 := by decide
  have L2 : promptPart2.data.length = 56 := by decide
  have L3 : promptPart3.data.length = 55 := by decide
  have L4 : promptPart4.data.length = 30 := by decide
  have hP : gemini_prompt [] [] ['♞']
      = promptPart1.data ++ (([] : List Char) ++ (promptPart2.data
        ++ (([] : List Char) ++ (promptPart3.data ++ (['♞'] ++ (promptPart4.data
          ++ (instrPart1.data ++ (instrPart2.data ++ (instrPart3.data
            ++ (instrPart4.data ++ (instrPart5.data ++ (instrPart6.data
              ++ promptPart5.data)))))))))))) := by
    simp [gemini_prompt, IMAGE_PROMPT_INSTRUCTIONS, String.data_append,
      List.append_assoc]
  refine ⟨?_, ?_, ?_, ?_, by omega⟩
  · rw [hP]
    simp only [countOcc_single_append]
    decide
  · rw [hP]
    simp only [countOcc_single_append]
    decide
  · rw [hP, show (551 : Nat)
      = promptPart1.data.length + (List.length ([] : List Char)
        + (promptPart2.data.length + (List.length ([] : List Char)
          + (promptPart3.data.length + 0))))
      from by rw [L1, L2, L3]; decide]
    exact occursAt_shift _ (occursAt_shift _ (occursAt_shift _ (occursAt_shift _
      (occursAt_shift _ (occursAt_here _ _)))))
  · rw [hP, show (591 : Nat)
      = promptPart1.data.length + (List.length ([] : List Char)
        + (promptPart2.data.length + (List.length ([] : List Char)
          + (promptPart3.data.length + (List.length ['♞']
            + (promptPart4.data.length + 9))))))
      from by rw [L1, L2, L3, L4]; decide]
    refine occursAt_shift _ (occursAt_shift _ (occursAt_shift _ (occursAt_shift _
      (occursAt_shift _ (occursAt_shift _ (occursAt_shift _ ?_))))))
    exact occursAt_mono _ (by decide) (by decide)

set_option maxRecDepth 4000 in
/-- C5 (amended): the prompt is a single document whose sections occur at
strictly increasing positions in this fixed order: persona framing, then
formatting guidance, then the safety instruction, then the reference
text, then the history block, then the VERBATIM QUESTION, then the
directive-catalog instructions, then the answer cue — that is, the
question precedes the directive-catalog instructions, not the other way
round. -/
theorem c5_prompt_section_order (pdf hist q : List Char) :
    ∃ i1 i2 i3 i4 i5 i6 i7 i8 : Nat,
      i1 < i2 ∧ i2 < i3 ∧ i3 < i4 ∧ i4 < i5 ∧ i5 < i6 ∧ i6 < i7 ∧ i7 < i8
      ∧ occursAt (gemini_prompt pdf hist q) "### 🎯 Persona".data i1 = true
      ∧ occursAt (gemini_prompt pdf hist q) "### 📝 Formatting".data i2 = true
      ∧ occursAt (gemini_prompt pdf hist q) "### 🚨 Safety".data i3 = true
      ∧ occursAt (gemini_prompt pdf hist q) pdf i4 = true
      ∧ occursAt (gemini_prompt pdf hist q) hist i5 = true
      ∧ occursAt (gemini_prompt pdf hist q) q i6 = true
      ∧ occursAt (gemini_prompt pdf hist q) IMAGE_PROMPT_INSTRUCTIONS.data i7 = true
      ∧ occursAt (gemini_prompt pdf hist q) "### Answer".data i8 = true := by
  have L1 : promptPart1.data.length = 440 := by decide
  have L2 : promptPart2.data.length = 56 := by decide
  have L3 : promptPart3.data.length = 55 := by decide
  have L4 : promptPart4.data.length = 30 := by decide
  have hID : IMAGE_PROMPT_INSTRUCTIONS.data
      = instrPart1.data ++ (instrPart2.data ++ (instrPart3.data
        ++ (instrPart4.data ++ (instrPart5.data ++ instrPart6.data)))) := by
    simp [IMAGE_PROMPT_INSTRUCTIONS, String.data_append, List.append_assoc]
  have LI : IMAGE_PROMPT_INSTRUCTIONS.data.length = 3071 := by
    rw [hID]
    simp only [List.length_append]
    decide
  have hP : gemini_prompt pdf hist q
      = promptPart1.data ++ (pdf ++ (promptPart2.data ++ (hist ++ (promptPart3.data
        ++ (q ++ (promptPart4.data ++ (IMAGE_PROMPT_INSTRUCTIONS.data
          ++ promptPart5.data))))))) := by
    simp [gemini_prompt, List.append_assoc]
  refine ⟨126, 209, 290, 440, pdf.length + 496,
    pdf.length + hist.length + 551,
    pdf.length + hist.length + q.length + 581,
    pdf.length + hist.length + q.length + 3666,
    by omega, by omega, by omega, by omega, by omega, by omega, by omega,
    ?_, ?_, ?_, ?_, ?_, ?_, ?_, ?_⟩
  · rw [hP]
    exact occursAt_mono _ (by rw [L1]; omega) (by decide)
  · rw [hP]
    exact occursAt_mono _ (by rw [L1]; omega) (by decide)
  · rw [hP]
    exact occursAt_mono _ (by rw [L1]; omega) (by decide)
  · rw [hP, show (440 : Nat) = promptPart1.data.length + 0 from by rw [L1]]
    exact occursAt_shift _ (occursAt_here _ _)
  · rw [hP, show pdf.length + 496
      = promptPart1.data.length + (pdf.length + (promptPart2.data.length + 0))
      from by rw [L1, L2]; omega]
    exact occursAt_shift _ (occursAt_shift _ (occursAt_shift _ (occursAt_here _ _)))
  · rw [hP, show pdf.length + hist.length + 551
      = promptPart1.data.length + (pdf.length + (promptPart2.data.length
        + (hist.length + (promptPart3.data.length + 0))))
      from by rw [L1, L2, L3]; omega]
    exact occursAt_shift _ (occursAt_shift _ (occursAt_shift _ (occursAt_shift _
      (occursAt_shift _ (occursAt_here _ _)))))
  · rw [hP, show pdf.length + hist.length + q.length + 581
      = promptPart1.data.length + (pdf.length + (promptPart2.data.length
        + (hist.length + (promptPart3.data.length + (q.length
          + (promptPart4.data.length + 0))))))
      from by rw [L1, L2, L3, L4]; omega]
    exact occursAt_shift _ (occursAt_shift _ (occursAt_shift _ (occursAt_shift _
      (occursAt_shift _ (occursAt_shift _ (occursAt_shift _ (occursAt_here _ _)))))))
  · rw [hP, show pdf.length + hist.length + q.length + 3666
      = promptPart1.data.length + (pdf.length + (promptPart2.data.length
        + (hist.length + (promptPart3.data.length + (q.length
          + (promptPart4.data.length + (IMAGE_PROMPT_INSTRUCTIONS.data.length
            + 14)))))))
      from by rw [L1, L2, L3, L4, LI]; omega]
    refine occursAt_shift _ (occursAt_shift _ (occursAt_shift _ (occursAt_shift _
      (occursAt_shift _ (occursAt_shift _ (occursAt_shift _ (occursAt_shift _ ?_)))))))
    decide
